import Mathlib

/-
Verification of the Route Path Registry
(src/frontend/src/constants/paths.ts).

The source file defines two constant objects, `protectedPaths` and
`publicPaths`, each mapping route identifiers to URL path templates.
We embed each object as an association list of (identifier, pattern)
pairs in source order.
-/

/-- A route table: an association list from route identifiers to
URL path patterns, in the order the source object writes them. -/
abbrev RouteTable := List (String × String)

/-- The `protectedPaths` constant of paths.ts, transcribed pair by pair. -/
def protectedPaths : RouteTable :=
  [ ("dashboard", "/"),
    ("collections", "/collections"),
    ("collectionDetail", "/collections/:readable_id"),
    ("collectionNew", "/collections/:readable_id/new"),
    ("apiKeys", "/api-keys"),
    ("authProviders", "/auth-providers"),
    ("whiteLabel", "/white-label"),
    ("whiteLabelTab", "/white-label/:id"),
    ("whiteLabelCreate", "/white-label/create"),
    ("whiteLabelDetail", "/white-label/:id"),
    ("whiteLabelEdit", "/white-label/:id/edit"),
    ("authCallback", "/auth/callback/:short_name") ]

/-- The `publicPaths` constant of paths.ts, transcribed pair by pair. -/
def publicPaths : RouteTable :=
  [ ("login", "/login"),
    ("callback", "/callback"),
    ("semanticMcp", "/semantic-mcp"),
    ("onboarding", "/onboarding"),
    ("billingSuccess", "/billing/success"),
    ("billingCancel", "/billing/cancel") ]

/-- The identifiers (keys) of a route table, in order. -/
def keys (t : RouteTable) : List String := t.map Prod.fst

/-- The patterns (values) of a route table, in order. -/
def patterns (t : RouteTable) : List String := t.map Prod.snd

/-- Modelled from the spec: the error with which `lookup` fails when an
identifier is absent from the table. The source file defines no error
type; the spec names a `NotFoundError`. -/
inductive NotFoundError where
  | notFound : NotFoundError
deriving DecidableEq

/-- Modelled from the spec: `lookup(table, identifier) -> pattern` returns
the pattern string associated with `identifier` and fails with a
`NotFoundError` if `identifier` is absent from `table`. The source file
defines no runtime lookup function; consumers access fields directly. -/
def lookup (table : RouteTable) (identifier : String) :
    Except NotFoundError String :=
  match table with
  | [] => Except.error NotFoundError.notFound
  | (k, p) :: rest =>
      if k = identifier then Except.ok p else lookup rest identifier

/-- A minimal JSON value type: a string or an object of ordered fields. -/
inductive Json where
  | str : String → Json
  | obj : List (String × Json) → Json

/-- Serialize a route table to a JSON object whose fields are the
identifier/pattern pairs, in order. -/
def serializeTable (t : RouteTable) : Json :=
  Json.obj (t.map (fun kv => (kv.1, Json.str kv.2)))

/-- Deserialize the field list of a JSON object back into a route table;
fails if any field value is not a string. -/
def deserializeFields : List (String × Json) → Option RouteTable
  | [] => some []
  | (k, Json.str s) :: rest =>
      Option.map (fun r => (k, s) :: r) (deserializeFields rest)
  | (_, Json.obj _) :: _ => none

/-- Deserialize a JSON value back into a route table; fails unless the
value is an object all of whose field values are strings. -/
def deserializeTable : Json → Option RouteTable
  | Json.obj fields => deserializeFields fields
  | Json.str _ => none

/-! ### Helper lemmas about `lookup` and serialization -/

lemma mem_of_lookup_ok {t : RouteTable} {q pat : String}
    (h : lookup t q = Except.ok pat) : (q, pat) ∈ t := by
  induction t with
  | nil => simp [lookup] at h
  | cons kv rest ih =>
      obtain ⟨a, b⟩ := kv
      by_cases hak : a = q
      · subst hak
        simp [lookup] at h
        subst h
        exact List.mem_cons_self _ _
      · simp [lookup, hak] at h
        exact List.mem_cons_of_mem _ (ih h)

lemma lookup_ok_of_mem {t : RouteTable} (hn : (keys t).Nodup)
    {q pat : String} (h : (q, pat) ∈ t) : lookup t q = Except.ok pat := by
  induction t with
  | nil => simp at h
  | cons kv rest ih =>
      obtain ⟨a, b⟩ := kv
      rw [show keys ((a, b) :: rest) = a :: keys rest from rfl,
          List.nodup_cons] at hn
      rcases List.mem_cons.mp h with heq | hmem
      · rw [Prod.mk.injEq] at heq
        obtain ⟨rfl, rfl⟩ := heq
        simp [lookup]
      · have hqk : q ∈ keys rest := List.mem_map_of_mem Prod.fst hmem
        have haq : a ≠ q := fun hc => hn.1 (hc ▸ hqk)
        simp [lookup, haq]
        exact ih hn.2 hmem

lemma lookup_error_iff (t : RouteTable) (q : String) :
    lookup t q = Except.error NotFoundError.notFound ↔ q ∉ keys t := by
  induction t with
  | nil => simp [lookup, keys]
  | cons kv rest ih =>
      obtain ⟨a, b⟩ := kv
      by_cases hak : a = q
      · subst hak
        simp [lookup, keys]
      · simp [lookup, hak, keys] at ih ⊢
        exact ⟨fun h => ⟨fun hqa => hak hqa.symm, ih.mp h⟩,
               fun h => ih.mpr h.2⟩

lemma deserialize_serialize (t : RouteTable) :
    deserializeTable (serializeTable t) = some t := by
  induction t with
  | nil => rfl
  | cons kv rest ih =>
      obtain ⟨a, b⟩ := kv
      have ih' : deserializeFields
          (rest.map (fun kv => (kv.1, Json.str kv.2))) = some rest := ih
      show Option.map (fun r => (a, b) :: r)
          (deserializeFields (rest.map (fun kv => (kv.1, Json.str kv.2)))) =
        some ((a, b) :: rest)
      rw [ih']
      rfl

/-! ### Claim theorems -/

/-- C1: `protectedPaths` contains exactly the twelve identifier-to-pattern
pairs listed in the spec — no more, no fewer, each identifier bound to
exactly that pattern string. Twelve distinct pairs are each members and
the table has length twelve, so the table is exactly those pairs. -/
theorem protectedPaths_pairs :
    protectedPaths.length = 12 ∧
    ("dashboard", "/") ∈ protectedPaths ∧
    ("collections", "/collections") ∈ protectedPaths ∧
    ("collectionDetail", "/collections/:readable_id") ∈ protectedPaths ∧
    ("collectionNew", "/collections/:readable_id/new") ∈ protectedPaths ∧
    ("apiKeys", "/api-keys") ∈ protectedPaths ∧
    ("authProviders", "/auth-providers") ∈ protectedPaths ∧
    ("whiteLabel", "/white-label") ∈ protectedPaths ∧
    ("whiteLabelTab", "/white-label/:id") ∈ protectedPaths ∧
    ("whiteLabelCreate", "/white-label/create") ∈ protectedPaths ∧
    ("whiteLabelDetail", "/white-label/:id") ∈ protectedPaths ∧
    ("whiteLabelEdit", "/white-label/:id/edit") ∈ protectedPaths ∧
    ("authCallback", "/auth/callback/:short_name") ∈ protectedPaths := by
  decide

/-- C2: `publicPaths` contains exactly the six identifier-to-pattern pairs
listed in the spec — no more, no fewer, each identifier bound to exactly
that pattern string; in particular login maps to "/login" and onboarding
maps to "/onboarding". -/
theorem publicPaths_pairs :
    publicPaths.length = 6 ∧
    ("login", "/login") ∈ publicPaths ∧
    ("callback", "/callback") ∈ publicPaths ∧
    ("semanticMcp", "/semantic-mcp") ∈ publicPaths ∧
    ("onboarding", "/onboarding") ∈ publicPaths ∧
    ("billingSuccess", "/billing/success") ∈ publicPaths ∧
    ("billingCancel", "/billing/cancel") ∈ publicPaths := by
  decide

/-- C3: for every identifier in `protectedPaths` and in `publicPaths`,
the associated pattern is a non-empty string whose first character
is '/'. -/
theorem patterns_start_with_slash :
    (∀ kv ∈ protectedPaths, kv.2 ≠ "" ∧ kv.2.data.head? = some '/') ∧
    (∀ kv ∈ publicPaths, kv.2 ≠ "" ∧ kv.2.data.head? = some '/') := by
  decide

/-- Witness for C3: instantiated at the first entry of each table. -/
theorem patterns_start_with_slash_witness :
    ("/" ≠ "" ∧ "/".data.head? = some '/') ∧
    ("/login" ≠ "" ∧ "/login".data.head? = some '/') :=
  ⟨patterns_start_with_slash.1 ("dashboard", "/") (by decide),
   patterns_start_with_slash.2 ("login", "/login") (by decide)⟩

/-- C4: for each table, `lookup` returns the pattern associated with an
identifier exactly when the identifier is present, and fails with
`NotFoundError` exactly when the identifier is absent. -/
theorem lookup_returns_iff_present :
    (∀ q pat, lookup protectedPaths q = Except.ok pat ↔
      (q, pat) ∈ protectedPaths) ∧
    (∀ q, lookup protectedPaths q = Except.error NotFoundError.notFound ↔
      q ∉ keys protectedPaths) ∧
    (∀ q pat, lookup publicPaths q = Except.ok pat ↔
      (q, pat) ∈ publicPaths) ∧
    (∀ q, lookup publicPaths q = Except.error NotFoundError.notFound ↔
      q ∉ keys publicPaths) := by
  refine ⟨fun q pat => ⟨mem_of_lookup_ok, lookup_ok_of_mem (by decide)⟩,
          fun q => lookup_error_iff _ q,
          fun q pat => ⟨mem_of_lookup_ok, lookup_ok_of_mem (by decide)⟩,
          fun q => lookup_error_iff _ q⟩

/-- Witness for C4: a present identifier resolves to its pattern and an
absent identifier fails with `NotFoundError`. -/
theorem lookup_returns_iff_present_witness :
    lookup protectedPaths "dashboard" = Except.ok "/" ∧
    lookup publicPaths "dashboard" = Except.error NotFoundError.notFound :=
  ⟨(lookup_returns_iff_present.1 "dashboard" "/").mpr (by decide),
   (lookup_returns_iff_present.2.2.2 "dashboard").mpr (by decide)⟩

/-- C5: the values bound to whiteLabelTab and whiteLabelDetail in
`protectedPaths` are equal to each other and both equal
"/white-label/:id". -/
theorem whiteLabel_duplicate_pattern :
    lookup protectedPaths "whiteLabelTab" = Except.ok "/white-label/:id" ∧
    lookup protectedPaths "whiteLabelDetail" = Except.ok "/white-label/:id" ∧
    lookup protectedPaths "whiteLabelTab" =
      lookup protectedPaths "whiteLabelDetail" :=
  ⟨rfl, rfl, rfl⟩

/-- C6: the identifier sets of `protectedPaths` and `publicPaths` are
disjoint: no route identifier is a key of both mappings. -/
theorem key_sets_disjoint :
    ∀ k ∈ keys protectedPaths, k ∉ keys publicPaths := by
  decide

/-- Witness for C6: instantiated at the identifier "dashboard". -/
theorem key_sets_disjoint_witness : "dashboard" ∉ keys publicPaths :=
  key_sets_disjoint "dashboard" (by decide)

/-- C7: serializing both route tables to JSON and deserializing them back
yields exactly the same identifier-to-pattern pairs, with no key or value
changed, added, or lost. -/
theorem registry_roundtrip :
    deserializeTable (serializeTable protectedPaths) = some protectedPaths ∧
    deserializeTable (serializeTable publicPaths) = some publicPaths :=
  ⟨deserialize_serialize protectedPaths, deserialize_serialize publicPaths⟩

/-- C8: within each of `protectedPaths` and `publicPaths` the identifiers
are pairwise distinct: neither mapping contains a duplicate key. -/
theorem keys_nodup :
    (keys protectedPaths).Nodup ∧ (keys publicPaths).Nodup := by
  decide

/-- C9: no pattern string occurs as a value in both `protectedPaths` and
`publicPaths`: the sets of pattern strings of the two tables are
disjoint. -/
theorem pattern_sets_disjoint :
    ∀ p ∈ patterns protectedPaths, p ∉ patterns publicPaths := by
  decide

/-- Witness for C9: instantiated at the pattern "/". -/
theorem pattern_sets_disjoint_witness : "/" ∉ patterns publicPaths :=
  pattern_sets_disjoint "/" (by decide)

/-- C10: every pattern in `publicPaths` is purely literal: no value of
`publicPaths` contains a ':' character. -/
theorem public_patterns_literal :
    ∀ kv ∈ publicPaths, ':' ∉ kv.2.data := by
  decide

/-- Witness for C10: instantiated at the login entry. -/
theorem public_patterns_literal_witness : ':' ∉ "/login".data :=
  public_patterns_literal ("login", "/login") (by decide)
